import Mathlib

/-
Verification of the RegexStringBuilder prototype
(src/RegexBuilder/regex_builder.py, src/example.py).

The builder is embedded shallowly: the instance state (regex_string,
regex_flags, previous_methods) becomes a structure, and every method
becomes a function on that structure.  Methods that succeed in Python
are pure functions; methods whose body raises are functions into
Except PyError.  Three private helpers that the class calls are never
defined anywhere in the module (there is no _add_postfix, no
_add_prefix and no method adding text for _apply_changes), and the
module never imports the re module, so the methods that rely on them
raise AttributeError or NameError the moment they are invoked; the
embedding records each such raise as an Except.error carrying the
missing name, which is what CPython attribute/name lookup reports.
-/

/-- Python exceptions that the module can actually raise: a NameError
from looking up an undefined global, and an AttributeError from
looking up an undefined method on the instance. -/
inductive PyError where
  | nameError (name : String)
  | attributeError (attr : String)
  deriving Repr, DecidableEq

/-- Instance state of RegexStringBuilder (regex_builder.py lines 72-78):
the pattern buffer, the flag list, and the operation-history list.
In the source, regex_flags only ever receives one-character strings
(via the += on line 232); the flag constants the six flag methods
would append are never reached, so List String covers every value the
field can hold. -/
structure RegexStringBuilder where
  regex_string : String
  regex_flags : List String
  previous_methods : List String
  deriving Repr, DecidableEq

/-- A fresh builder as produced by the constructor (lines 72-78). -/
def RegexStringBuilder.init : RegexStringBuilder :=
  { regex_string := "", regex_flags := [], previous_methods := [] }

/-- Internal method _add_flag (lines 80-87): appends one token to
regex_flags and, like every Python method without a return statement,
returns None (modelled as Unit). -/
def RegexStringBuilder._add_flag (self : RegexStringBuilder) (flag : String) :
    RegexStringBuilder × Unit :=
  ({ self with regex_flags := self.regex_flags ++ [flag] }, ())

/-- Internal method _apply_changes (lines 89-95): does nothing when
regex_flags is empty; otherwise it joins the flags with a bar and then
calls self._add_to_regex_string, a method the class never defines, so
attribute lookup raises AttributeError before the buffer is touched. -/
def RegexStringBuilder._apply_changes (self : RegexStringBuilder) :
    Except PyError RegexStringBuilder :=
  if self.regex_flags = [] then
    Except.ok self
  else
    Except.error (PyError.attributeError "_add_to_regex_string")

/-- Method case_insensitive (lines 97-104): the body evaluates
re.IGNORECASE, but regex_builder.py has no import statement, so the
global name re is undefined and the call raises NameError before
_add_flag runs. -/
def RegexStringBuilder.case_insensitive (self : RegexStringBuilder) :
    Except PyError Unit :=
  Except.error (PyError.nameError "re")

/-- Method multiline (lines 106-113): evaluates re.MULTILINE, and since
re was never imported this raises NameError. -/
def RegexStringBuilder.multiline (self : RegexStringBuilder) :
    Except PyError Unit :=
  Except.error (PyError.nameError "re")

/-- Method match_newlines (lines 115-122): evaluates re.DOTALL, and since
re was never imported this raises NameError. -/
def RegexStringBuilder.match_newlines (self : RegexStringBuilder) :
    Except PyError Unit :=
  Except.error (PyError.nameError "re")

/-- Method as_unicode (lines 124-131): evaluates re.UNICODE, and since
re was never imported this raises NameError. -/
def RegexStringBuilder.as_unicode (self : RegexStringBuilder) :
    Except PyError Unit :=
  Except.error (PyError.nameError "re")

/-- Method as_ascii (lines 133-140): evaluates re.ASCII, and since
re was never imported this raises NameError. -/
def RegexStringBuilder.as_ascii (self : RegexStringBuilder) :
    Except PyError Unit :=
  Except.error (PyError.nameError "re")

/-- Method debug_mode (lines 142-149): evaluates re.DEBUG, and since
re was never imported this raises NameError. -/
def RegexStringBuilder.debug_mode (self : RegexStringBuilder) :
    Except PyError Unit :=
  Except.error (PyError.nameError "re")

/-- Method one_or_more (lines 151-162): appends a plus, or the element
followed by a plus. -/
def RegexStringBuilder.one_or_more (self : RegexStringBuilder)
    (element : Option String) : RegexStringBuilder :=
  { self with regex_string :=
      self.regex_string ++ (match element with
        | none => "+"
        | some e => e ++ "+") }

/-- Method zero_or_more (lines 164-175): appends a star, or the element
followed by a star. -/
def RegexStringBuilder.zero_or_more (self : RegexStringBuilder)
    (element : Option String) : RegexStringBuilder :=
  { self with regex_string :=
      self.regex_string ++ (match element with
        | none => "*"
        | some e => e ++ "*") }

/-- Method zero_or_one (lines 177-188): the body calls
self._add_postfix(element, "?"), but the class defines no such method
and the module defines nothing outside the class, so attribute lookup
raises AttributeError before any state changes. -/
def RegexStringBuilder.zero_or_one (self : RegexStringBuilder)
    (element : String) : Except PyError RegexStringBuilder :=
  Except.error (PyError.attributeError "_add_postfix")

/-- Method starting_with (lines 190-204): both branches call
self._add_prefix, a method the class never defines, so attribute
lookup raises AttributeError on every invocation. -/
def RegexStringBuilder.starting_with (self : RegexStringBuilder)
    (element : Option String) : Except PyError RegexStringBuilder :=
  Except.error (PyError.attributeError "_add_prefix")

/-- Method ending_with (lines 206-217): appends a dollar, or the
element followed by a dollar. -/
def RegexStringBuilder.ending_with (self : RegexStringBuilder)
    (element : Option String) : RegexStringBuilder :=
  { self with regex_string :=
      self.regex_string ++ (match element with
        | none => "$"
        | some e => e ++ "$") }

/-- Method match_any_character (lines 219-233): appends a dot, or a dot
followed by the character; when the flag parameter is set it executes
self.regex_flags += "| Re.DOTALL", and in Python adding a string to a
list extends the list with the individual characters of the string, so
eleven one-character strings are appended. -/
def RegexStringBuilder.match_any_character (self : RegexStringBuilder)
    (character : Option String) (newlines : Bool) : RegexStringBuilder :=
  let withDot :=
    { self with regex_string :=
        self.regex_string ++ (match character with
          | none => "."
          | some c => "." ++ c) }
  if newlines then
    { withDot with regex_flags :=
        withDot.regex_flags ++
          ["|", " ", "R", "e", ".", "D", "O", "T", "A", "L", "L"] }
  else
    withDot

/-- Method match_exactly (lines 235-251): with no element the whole
buffer is rewritten to caret-buffer-dollar; with an element,
caret-element-dollar is appended. -/
def RegexStringBuilder.match_exactly (self : RegexStringBuilder)
    (element : Option String) : RegexStringBuilder :=
  match element with
  | none => { self with regex_string := "^" ++ self.regex_string ++ "$" }
  | some e => { self with regex_string := self.regex_string ++ ("^" ++ e ++ "$") }

/-- Method either_word_or_substring (lines 253-269): with no element
the whole buffer is rewritten into one parenthesised group; with an
element a parenthesised group holding it is appended. -/
def RegexStringBuilder.either_word_or_substring (self : RegexStringBuilder)
    (element : Option String) : RegexStringBuilder :=
  match element with
  | none => { self with regex_string := "(" ++ self.regex_string ++ ")" }
  | some e => { self with regex_string := self.regex_string ++ ("(" ++ e ++ ")") }

/-- Method match_either_or (lines 271-283): appends element1, a bar,
element2. -/
def RegexStringBuilder.match_either_or (self : RegexStringBuilder)
    (element1 element2 : String) : RegexStringBuilder :=
  { self with regex_string := self.regex_string ++ (element1 ++ "|" ++ element2) }

/-- Method match_previous_or_this (lines 285-296): appends a bar then
the element. -/
def RegexStringBuilder.match_previous_or_this (self : RegexStringBuilder)
    (element : String) : RegexStringBuilder :=
  { self with regex_string := self.regex_string ++ ("|" ++ element) }

/-- Method set_of (lines 298-309): appends the element inside square
brackets. -/
def RegexStringBuilder.set_of (self : RegexStringBuilder)
    (element : String) : RegexStringBuilder :=
  { self with regex_string := self.regex_string ++ ("[" ++ element ++ "]") }

/-- Method match_from_n_to_m_occurrences (lines 311-323): appends an
open brace, n, a comma and a space, m, a close brace; m defaults to
the empty string at the call site. -/
def RegexStringBuilder.match_from_n_to_m_occurrences (self : RegexStringBuilder)
    (n : Int) (m : String) : RegexStringBuilder :=
  { self with regex_string :=
      self.regex_string ++ ("\x7b" ++ toString n ++ ", " ++ m ++ "\x7d") }

/-- Method match_literal (lines 325-336): appends the element
verbatim. -/
def RegexStringBuilder.match_literal (self : RegexStringBuilder)
    (element : String) : RegexStringBuilder :=
  { self with regex_string := self.regex_string ++ element }

/-- Method escape (lines 338-349): appends a backslash then the
element. -/
def RegexStringBuilder.escape (self : RegexStringBuilder)
    (element : String) : RegexStringBuilder :=
  { self with regex_string := self.regex_string ++ ("\\" ++ element) }

/-- Method match_all_words (lines 351-359). -/
def RegexStringBuilder.match_all_words (self : RegexStringBuilder) :
    RegexStringBuilder :=
  { self with regex_string := self.regex_string ++ "\\b\\w+\\b" }

/-- Method match_all_words_and_digits (lines 361-369). -/
def RegexStringBuilder.match_all_words_and_digits (self : RegexStringBuilder) :
    RegexStringBuilder :=
  { self with regex_string := self.regex_string ++ "\\b\\w*\\d*\\w+\\b" }

/-- Method match_all_digits (lines 371-379). -/
def RegexStringBuilder.match_all_digits (self : RegexStringBuilder) :
    RegexStringBuilder :=
  { self with regex_string := self.regex_string ++ "\\d+" }

/-- Method match_words_up_to_n_chars (lines 381-392): appends a word
boundary, a word-class repetition with lower bound n, and a word
boundary. -/
def RegexStringBuilder.match_words_up_to_n_chars (self : RegexStringBuilder)
    (n : Int) : RegexStringBuilder :=
  { self with regex_string :=
      self.regex_string ++ ("\\b\\w\x7b" ++ toString n ++ ",\x7d\\b") }

/-- Method match_all_chars (lines 394-402). -/
def RegexStringBuilder.match_all_chars (self : RegexStringBuilder) :
    RegexStringBuilder :=
  { self with regex_string := self.regex_string ++ "\\S" }

/-- Method optional_character (lines 404-415): appends the character
followed by a question mark. -/
def RegexStringBuilder.optional_character (self : RegexStringBuilder)
    (char : String) : RegexStringBuilder :=
  { self with regex_string := self.regex_string ++ (char ++ "?") }

/-- Method not_set_of (lines 417-431): appends the element inside a
negated bracket class and returns self; before appending it prints an
advisory exactly when the element equals the two characters
backslash-s.  The Bool in the result records whether the advisory was
printed; the print has no effect on the state. -/
def RegexStringBuilder.not_set_of (self : RegexStringBuilder)
    (element : String) : RegexStringBuilder × Bool :=
  ({ self with regex_string := self.regex_string ++ ("[^" ++ element ++ "]") },
   element == "\\s")

/-- Method match_non_whitespace (lines 433-441). -/
def RegexStringBuilder.match_non_whitespace (self : RegexStringBuilder) :
    RegexStringBuilder :=
  { self with regex_string := self.regex_string ++ "\\S" }

/-- Method build (lines 443-451): runs _apply_changes, then returns the
buffer.  The pair carries the state after the call together with the
returned string; when regex_flags is non-empty _apply_changes raises,
and the exception propagates out of build. -/
def RegexStringBuilder.build (self : RegexStringBuilder) :
    Except PyError (RegexStringBuilder × String) :=
  (RegexStringBuilder._apply_changes self).map fun b => (b, b.regex_string)

/-- One invocation of a public builder method, with its arguments, used
to reason about arbitrary call sequences. -/
inductive Op where
  | case_insensitive
  | multiline
  | match_newlines
  | as_unicode
  | as_ascii
  | debug_mode
  | one_or_more (element : Option String)
  | zero_or_more (element : Option String)
  | zero_or_one (element : String)
  | starting_with (element : Option String)
  | ending_with (element : Option String)
  | match_any_character (character : Option String) (newlines : Bool)
  | match_exactly (element : Option String)
  | either_word_or_substring (element : Option String)
  | match_either_or (element1 element2 : String)
  | match_previous_or_this (element : String)
  | set_of (element : String)
  | match_from_n_to_m_occurrences (n : Int) (m : String)
  | match_literal (element : String)
  | escape (element : String)
  | match_all_words
  | match_all_words_and_digits
  | match_all_digits
  | match_words_up_to_n_chars (n : Int)
  | match_all_chars
  | optional_character (char : String)
  | not_set_of (element : String)
  | match_non_whitespace
  deriving Repr, DecidableEq

/-- Effect of one method invocation on the builder state: the new state
when the call returns, or the exception it raises.  Methods that raise
do so before mutating, so no state survives an error. -/
def step (b : RegexStringBuilder) : Op → Except PyError RegexStringBuilder
  | Op.case_insensitive => (b.case_insensitive).map fun _ => b
  | Op.multiline => (b.multiline).map fun _ => b
  | Op.match_newlines => (b.match_newlines).map fun _ => b
  | Op.as_unicode => (b.as_unicode).map fun _ => b
  | Op.as_ascii => (b.as_ascii).map fun _ => b
  | Op.debug_mode => (b.debug_mode).map fun _ => b
  | Op.one_or_more e => Except.ok (b.one_or_more e)
  | Op.zero_or_more e => Except.ok (b.zero_or_more e)
  | Op.zero_or_one e => b.zero_or_one e
  | Op.starting_with e => b.starting_with e
  | Op.ending_with e => Except.ok (b.ending_with e)
  | Op.match_any_character c nl => Except.ok (b.match_any_character c nl)
  | Op.match_exactly e => Except.ok (b.match_exactly e)
  | Op.either_word_or_substring e => Except.ok (b.either_word_or_substring e)
  | Op.match_either_or e1 e2 => Except.ok (b.match_either_or e1 e2)
  | Op.match_previous_or_this e => Except.ok (b.match_previous_or_this e)
  | Op.set_of e => Except.ok (b.set_of e)
  | Op.match_from_n_to_m_occurrences n m =>
      Except.ok (b.match_from_n_to_m_occurrences n m)
  | Op.match_literal e => Except.ok (b.match_literal e)
  | Op.escape e => Except.ok (b.escape e)
  | Op.match_all_words => Except.ok b.match_all_words
  | Op.match_all_words_and_digits => Except.ok b.match_all_words_and_digits
  | Op.match_all_digits => Except.ok b.match_all_digits
  | Op.match_words_up_to_n_chars n => Except.ok (b.match_words_up_to_n_chars n)
  | Op.match_all_chars => Except.ok b.match_all_chars
  | Op.optional_character c => Except.ok (b.optional_character c)
  | Op.not_set_of e => Except.ok (b.not_set_of e).1
  | Op.match_non_whitespace => Except.ok b.match_non_whitespace

/-- Runs a sequence of method invocations left to right, stopping at
the first raised exception, as a Python call chain does. -/
def runOps (b : RegexStringBuilder) : List Op → Except PyError RegexStringBuilder
  | [] => Except.ok b
  | op :: rest => (step b op).bind fun b2 => runOps b2 rest

/-- The state reached by the documented example chain of src/example.py
lines 8-19 (everything before the final build call), starting from a
fresh builder. -/
def example_chain : RegexStringBuilder :=
  ((((((((RegexStringBuilder.init.match_literal
      "http").optional_character "s").match_previous_or_this
      "ftp").either_word_or_substring none).match_literal
      "://").not_set_of "\\s/$.?#").1.match_any_character none
      false).match_non_whitespace.zero_or_more none).match_exactly none

/-- Calling build a fixed number of times in a row: each successful
call is rerun on the state it left behind. -/
def buildTimes (b : RegexStringBuilder) : Nat → Except PyError (RegexStringBuilder × String)
  | 0 => b.build
  | n + 1 => b.build.bind fun p => buildTimes p.1 n

/-- C1: the claim says no operation raises under normal string
arguments, naming zero_or_one, starting_with, the six flag operations
and build after a flag.  Evaluating the code refutes it: on a builder
holding the normal buffer "a", zero_or_one and starting_with raise
AttributeError for the never-defined helpers, debug_mode raises
NameError because the module never imports re, and build on a
non-empty flag list raises AttributeError for the never-defined
_add_to_regex_string. -/
theorem c1_operations_raise :
    (RegexStringBuilder.init.match_literal "a").zero_or_one "b"
      = Except.error (PyError.attributeError "_add_postfix")
  ∧ (RegexStringBuilder.init.match_literal "a").starting_with (some "c")
      = Except.error (PyError.attributeError "_add_prefix")
  ∧ (RegexStringBuilder.init.match_literal "a").debug_mode
      = Except.error (PyError.nameError "re")
  ∧ ((RegexStringBuilder.init.match_literal "a").match_any_character none true).build
      = Except.error (PyError.attributeError "_add_to_regex_string") :=
  ⟨rfl, rfl, rfl, rfl⟩

/-- C2: the claim says build on a non-empty flag list returns the flag
group followed by the buffer.  Evaluating the code refutes it: on the
one reachable builder with a non-empty flag list (reached through
match_any_character with the newline flag), build raises
AttributeError, because _apply_changes calls the never-defined
_add_to_regex_string, so no string is returned at all. -/
theorem c2_build_with_flags_raises :
    (RegexStringBuilder.init.match_any_character none true).build
      = Except.error (PyError.attributeError "_add_to_regex_string") :=
  rfl

/-- C3: starting from a fresh builder, the documented example chain of
src/example.py produces exactly the URL pattern string, and build
returns it unchanged since no flag was registered. -/
theorem c3_example_chain_output :
    example_chain.build
      = Except.ok (example_chain, "^(https?|ftp)://[^\\s/$.?#].\\S*$") :=
  rfl

/-- C4: on every builder whose flag list is empty, build returns
exactly the current pattern buffer. -/
theorem c4_build_no_flags (b : RegexStringBuilder) (h : b.regex_flags = []) :
    (b.build).map Prod.snd = Except.ok b.regex_string := by
  simp [RegexStringBuilder.build, RegexStringBuilder._apply_changes, h,
    Except.map]

/-- Witness for C4 at the builder holding buffer "abc" and no flags. -/
theorem c4_build_no_flags_witness :
    (RegexStringBuilder.mk "abc" [] []).regex_flags = []
  ∧ ((RegexStringBuilder.mk "abc" [] []).build).map Prod.snd = Except.ok "abc" :=
  ⟨rfl, c4_build_no_flags (RegexStringBuilder.mk "abc" [] []) rfl⟩

/-- C5: the claim says match_any_character with the newline flag
appends exactly one dot-all token to the flag list.  Evaluating the
code refutes the flag part: the buffer does receive the dot, but
regex_flags += "| Re.DOTALL" extends the list with the eleven
individual characters of that string, so the flag list gains eleven
one-character entries, not one token. -/
theorem c5_newline_flag_divergence :
    (RegexStringBuilder.init.match_any_character none true).regex_string = "."
  ∧ (RegexStringBuilder.init.match_any_character none true).regex_flags
      = ["|", " ", "R", "e", ".", "D", "O", "T", "A", "L", "L"]
  ∧ (RegexStringBuilder.init.match_any_character none true).regex_flags.length ≠ 1 :=
  ⟨rfl, rfl, by decide⟩

/-- C6: the claim says each of the six flag operations appends one
flag token and returns the append result.  Evaluating the code refutes
it: every one of them raises NameError on the undefined global re
before reaching _add_flag, so nothing is appended and nothing is
returned. -/
theorem c6_flag_ops_name_error :
    RegexStringBuilder.init.case_insensitive = Except.error (PyError.nameError "re")
  ∧ RegexStringBuilder.init.multiline = Except.error (PyError.nameError "re")
  ∧ RegexStringBuilder.init.match_newlines = Except.error (PyError.nameError "re")
  ∧ RegexStringBuilder.init.as_unicode = Except.error (PyError.nameError "re")
  ∧ RegexStringBuilder.init.as_ascii = Except.error (PyError.nameError "re")
  ∧ RegexStringBuilder.init.debug_mode = Except.error (PyError.nameError "re") :=
  ⟨rfl, rfl, rfl, rfl, rfl, rfl⟩

/-- C7: the claim quantifies over every operation with an optional
element and says an explicit element is appended with the prior buffer
kept intact.  Evaluating the code refutes it for starting_with, one of
those operations: called with an element on the buffer "x" it raises
AttributeError for the never-defined helper instead of appending
anything. -/
theorem c7_starting_with_raises :
    (RegexStringBuilder.mk "x" [] []).starting_with (some "abc")
      = Except.error (PyError.attributeError "_add_prefix") :=
  rfl

/-- Helper: one successful method invocation never changes
previous_methods — no method of the class ever writes to it. -/
theorem step_preserves_history (b : RegexStringBuilder) (op : Op)
    (b2 : RegexStringBuilder) (h : step b op = Except.ok b2) :
    b2.previous_methods = b.previous_methods := by
  cases op <;>
    simp only [step, Except.map, RegexStringBuilder.case_insensitive,
      RegexStringBuilder.multiline, RegexStringBuilder.match_newlines,
      RegexStringBuilder.as_unicode, RegexStringBuilder.as_ascii,
      RegexStringBuilder.debug_mode, RegexStringBuilder.zero_or_one,
      RegexStringBuilder.starting_with] at h <;>
    first
      | (injection h; done)
      | (injection h with h2; subst h2; rfl)
      | (rename_i nl; injection h with h2; subst h2; cases nl <;> rfl)

/-- C8 as amended: no operation records its name, so after any sequence
of method invocations that completes without an exception the history
list is exactly what it was at the start (empty, on a fresh builder). -/
theorem c8_history_never_written (b : RegexStringBuilder) (ops : List Op)
    (b2 : RegexStringBuilder) (h : runOps b ops = Except.ok b2) :
    b2.previous_methods = b.previous_methods := by
  induction ops generalizing b with
  | nil =>
      injection h with h2
      subst h2
      rfl
  | cons op rest ih =>
      simp only [runOps] at h
      cases hstep : step b op with
      | error e => rw [hstep] at h; exact nomatch h
      | ok bmid =>
          rw [hstep] at h
          exact (ih bmid h).trans (step_preserves_history b op bmid hstep)

/-- Witness for C8 as amended: running match_literal then
optional_character on a fresh builder leaves the history empty. -/
theorem c8_history_never_written_witness :
    runOps RegexStringBuilder.init [Op.match_literal "http", Op.optional_character "s"]
      = Except.ok (RegexStringBuilder.mk "https?" [] [])
  ∧ (RegexStringBuilder.mk "https?" [] []).previous_methods
      = RegexStringBuilder.init.previous_methods :=
  ⟨rfl, c8_history_never_written RegexStringBuilder.init
    [Op.match_literal "http", Op.optional_character "s"]
    (RegexStringBuilder.mk "https?" [] []) rfl⟩

/-- Counterexample to C8 as stated: after invoking match_literal on a
fresh builder the history is still empty, not the one-element list of
the name of the invoked operation. -/
theorem c8_history_counterexample :
    (RegexStringBuilder.init.match_literal "http").previous_methods = []
  ∧ (RegexStringBuilder.init.match_literal "http").previous_methods
      ≠ ["match_literal"] :=
  ⟨rfl, by decide⟩

/-- C9: not_set_of appends the element inside a negated bracket class,
touches neither the flag list nor the history, and the advisory fires
exactly when the element is the two-character string backslash-s; the
buffer effect is the same either way. -/
theorem c9_not_set_of_advisory (b : RegexStringBuilder) (e : String) :
    (b.not_set_of e).1.regex_string = b.regex_string ++ ("[^" ++ e ++ "]")
  ∧ (b.not_set_of e).1.regex_flags = b.regex_flags
  ∧ (b.not_set_of e).1.previous_methods = b.previous_methods
  ∧ ((b.not_set_of e).2 = true ↔ e = "\\s") := by
  refine ⟨rfl, rfl, rfl, ?_⟩
  simp [RegexStringBuilder.not_set_of]

/-- C10: on every builder whose flag list is empty, build returns the
buffer and leaves the whole state untouched, so any number of repeated
build calls keeps returning the same pair of state and string. -/
theorem c10_build_no_flags_frame (b : RegexStringBuilder)
    (h : b.regex_flags = []) :
    ∀ n, buildTimes b n = Except.ok (b, b.regex_string) := by
  intro n
  induction n with
  | zero =>
      simp [buildTimes, RegexStringBuilder.build,
        RegexStringBuilder._apply_changes, h, Except.map]
  | succ k ih =>
      simp only [buildTimes, RegexStringBuilder.build,
        RegexStringBuilder._apply_changes, h, Except.map, if_pos]
      simpa [RegexStringBuilder.build, RegexStringBuilder._apply_changes, h,
        Except.map, Except.bind] using ih

/-- Witness for C10 at a fresh builder, building three times. -/
theorem c10_build_no_flags_frame_witness :
    RegexStringBuilder.init.regex_flags = []
  ∧ buildTimes RegexStringBuilder.init 2
      = Except.ok (RegexStringBuilder.init, "") :=
  ⟨rfl, c10_build_no_flags_frame RegexStringBuilder.init rfl 2⟩
